import Mathlib

/-!
Verification development for the BetterSave energy-dashboard data pipeline.

The tabular data handled by the code is modelled shallowly: a data frame is a
list of column names together with a list of rows, and every cell is an
`Option ℚ` value, where `none` stands for a missing entry (pandas `NaN`,
including values coerced to `NaN` by `to_numeric(errors="coerce")`) and
`some q` stands for a numeric value.  Floating-point numbers are abstracted
as rationals, and timestamps as integer day counts (the int64-nanosecond
range limit of concrete timestamps is abstracted away).  Python functions
that can raise are embedded as `Option`-returning functions, with `none`
standing for a raised exception; a `try/except` boundary that converts any
exception into an empty sentinel is embedded as `Option.getD` at that
boundary.
-/

set_option maxRecDepth 8000

namespace BetterSave

/-- A cell of a data frame: `none` is `NaN` / missing, `some q` a numeric value. -/
abbrev Cell := Option ℚ

/-- A data frame: named columns over rows of cells.  Column access is by the
first column carrying the requested name, row filtering is positional, as in
pandas. -/
structure DFrame where
  cols : List String
  rows : List (List Cell)
deriving DecidableEq

/-- Index of the first column with the given name (pandas column lookup);
`none` models a `KeyError`. -/
def DFrame.colIdx? (df : DFrame) (name : String) : Option Nat :=
  df.cols.findIdx? (fun c => c = name)

/-- Extract a column as a list of cells, one per row (cells beyond a ragged
row read as missing; pandas rows are never ragged). -/
def DFrame.getCol (df : DFrame) (name : String) : Option (List Cell) :=
  (df.colIdx? name).map (fun i => df.rows.map (fun r => r.getD i none))

/-- Sum of a list of cells, skipping missing entries: pandas `Series.sum()`
with its default `skipna=True` (in particular an all-missing or empty list
sums to `0`). -/
def qsum (l : List Cell) : ℚ := (l.map (fun x => x.getD 0)).sum

/-- The consumption total column used throughout the code. -/
def totalCol : String := "Total (grid load) [MWh] Calculated resolutions"

/-! ### data_loader.filter_data

`src/FrontEnd/data_loader.py` defines `filter_data` twice; the later
definition shadows the earlier one.  Both keep the rows whose `Year` lies in
the inclusive selected range and whose `Month` is one of the selected months;
they differ only in the order in which the consumption and generation tables
are computed.  A missing `Year`/`Month` column would raise a `KeyError`
(there is no `try` here), modelled by the `Option` result. -/

/-- The row predicate of `filter_data`: pandas
`(Year >= y0) & (Year <= y1) & Month.isin(months)`.  A `NaN` year or month
compares false, as in pandas. -/
def rowKeep (yIdx mIdx : Nat) (ysel : ℚ × ℚ) (months : List ℚ) (r : List Cell) : Bool :=
  (match r.getD yIdx none with
   | some y => decide (ysel.1 ≤ y) && decide (y ≤ ysel.2)
   | none => false) &&
  (match r.getD mIdx none with
   | some m => decide (m ∈ months)
   | none => false)

/-- Boolean-mask filtering of one table on the `Year`/`Month` columns. -/
def filterTable (df : DFrame) (ysel : ℚ × ℚ) (months : List ℚ) : Option DFrame := do
  let yIdx ← df.colIdx? "Year"
  let mIdx ← df.colIdx? "Month"
  pure ⟨df.cols, df.rows.filter (rowKeep yIdx mIdx ysel months)⟩

/-- The earlier `filter_data` (data_loader.py lines 165-191): filters the
generation table first, then the consumption table.  `selected_sources` is
accepted but unused, as in the source. -/
def filter_data_first (energy_generation energy_consumption : DFrame)
    (year_selection : ℚ × ℚ) (month_selection : List ℚ)
    (selected_sources : List String) : Option (DFrame × DFrame) := do
  let filtered_energy_gen ← filterTable energy_generation year_selection month_selection
  let filtered_energy_cons ← filterTable energy_consumption year_selection month_selection
  pure (filtered_energy_gen, filtered_energy_cons)

/-- The later, shadowing `filter_data` (data_loader.py lines 217-243):
filters the consumption table first, then the generation table, and returns
the same `(generation, consumption)` pair. -/
def filter_data (energy_generation energy_consumption : DFrame)
    (year_selection : ℚ × ℚ) (month_selection : List ℚ)
    (selected_sources : List String) : Option (DFrame × DFrame) := do
  let filtered_energy_cons ← filterTable energy_consumption year_selection month_selection
  let filtered_energy_gen ← filterTable energy_generation year_selection month_selection
  pure (filtered_energy_gen, filtered_energy_cons)

/-- The bucket predicate of the spec, stated on a row: the row has a numeric
year within the inclusive range and a numeric month belonging to the selected
month set. -/
def RowInBucket (yIdx mIdx : Nat) (ysel : ℚ × ℚ) (months : List ℚ) (r : List Cell) : Prop :=
  (∃ y, r.getD yIdx none = some y ∧ ysel.1 ≤ y ∧ y ≤ ysel.2) ∧
  (∃ m, r.getD mIdx none = some m ∧ m ∈ months)

lemma rowKeep_iff (yIdx mIdx : Nat) (ysel : ℚ × ℚ) (months : List ℚ) (r : List Cell) :
    rowKeep yIdx mIdx ysel months r = true ↔ RowInBucket yIdx mIdx ysel months r := by
  unfold rowKeep RowInBucket
  cases hy : r.getD yIdx none with
  | none => simp [hy]
  | some y =>
    cases hm : r.getD mIdx none with
    | none => simp [hy, hm]
    | some m => simp [hy, hm, and_assoc]

lemma filterTable_some {df df' : DFrame} {ysel : ℚ × ℚ} {months : List ℚ}
    (h : filterTable df ysel months = some df') :
    ∃ yIdx mIdx, df.colIdx? "Year" = some yIdx ∧ df.colIdx? "Month" = some mIdx ∧
      df' = ⟨df.cols, df.rows.filter (rowKeep yIdx mIdx ysel months)⟩ := by
  unfold filterTable at h
  cases hy : df.colIdx? "Year" with
  | none => rw [hy] at h; exact absurd h (by simp)
  | some yIdx =>
    cases hm : df.colIdx? "Month" with
    | none => rw [hy, hm] at h; exact absurd h (by simp)
    | some mIdx =>
      rw [hy, hm] at h
      simp only [Option.bind_eq_bind, Option.some_bind, Option.pure_def,
        Option.some.injEq] at h
      exact ⟨yIdx, mIdx, rfl, rfl, h.symm⟩

/-- Claim C10: the two `filter_data` definitions in the loader module (the
earlier one and the later, shadowing one, which differ only in the order in
which they compute the consumption and generation results) are extensionally
equal: on every pair of tables and every selection they return the same
`(filtered generation, filtered consumption)` pair. -/
theorem filter_data_defs_agree (energy_generation energy_consumption : DFrame)
    (year_selection : ℚ × ℚ) (month_selection : List ℚ)
    (selected_sources : List String) :
    filter_data_first energy_generation energy_consumption year_selection
        month_selection selected_sources =
      filter_data energy_generation energy_consumption year_selection
        month_selection selected_sources := by
  unfold filter_data_first filter_data
  cases filterTable energy_generation year_selection month_selection with
  | none =>
    cases filterTable energy_consumption year_selection month_selection with
    | none => rfl
    | some fc => rfl
  | some fg =>
    cases filterTable energy_consumption year_selection month_selection with
    | none => rfl
    | some fc => rfl

/-- Claim C3: whenever `filter_data` succeeds, a row appears in either output
table exactly when it appears in the corresponding input table and satisfies
the inclusive year-range bound together with membership of its month in the
selected month set; and an empty month selection yields empty tables, not an
error. -/
theorem filter_membership_characterization
    (gen cons : DFrame) (ysel : ℚ × ℚ) (months : List ℚ) (srcs : List String)
    (fg fc : DFrame) (gy gm cy cm : Nat)
    (h : filter_data gen cons ysel months srcs = some (fg, fc))
    (hgy : gen.colIdx? "Year" = some gy) (hgm : gen.colIdx? "Month" = some gm)
    (hcy : cons.colIdx? "Year" = some cy) (hcm : cons.colIdx? "Month" = some cm) :
    (∀ r, r ∈ fg.rows ↔ r ∈ gen.rows ∧ RowInBucket gy gm ysel months r) ∧
    (∀ r, r ∈ fc.rows ↔ r ∈ cons.rows ∧ RowInBucket cy cm ysel months r) ∧
    (months = [] → fg.rows = [] ∧ fc.rows = []) := by
  unfold filter_data at h
  cases hfc : filterTable cons ysel months with
  | none => rw [hfc] at h; exact absurd h (by simp)
  | some fc' =>
    cases hfg : filterTable gen ysel months with
    | none => rw [hfc, hfg] at h; exact absurd h (by simp)
    | some fg' =>
      rw [hfc, hfg] at h
      simp only [Option.bind_eq_bind, Option.some_bind, Option.pure_def,
        Option.some.injEq, Prod.mk.injEq] at h
      obtain ⟨hfg', hfc'⟩ := h
      subst hfg' hfc'
      obtain ⟨gy', gm', hgy', hgm', hfgEq⟩ := filterTable_some hfg
      obtain ⟨cy', cm', hcy', hcm', hfcEq⟩ := filterTable_some hfc
      rw [hgy'] at hgy; rw [hgm'] at hgm; rw [hcy'] at hcy; rw [hcm'] at hcm
      injection hgy with hgyE; injection hgm with hgmE
      injection hcy with hcyE; injection hcm with hcmE
      subst hgyE hgmE hcyE hcmE
      subst hfgEq hfcEq
      refine ⟨?_, ?_, ?_⟩
      · intro r
        simp only [List.mem_filter, rowKeep_iff]
      · intro r
        simp only [List.mem_filter, rowKeep_iff]
      · intro hmo
        subst hmo
        constructor
        · apply List.filter_eq_nil_iff.mpr
          intro r _ hk
          rcases (rowKeep_iff _ _ _ _ _).mp hk with ⟨_, ⟨m, _, hm⟩⟩
          exact absurd hm (List.not_mem_nil m)
        · apply List.filter_eq_nil_iff.mpr
          intro r _ hk
          rcases (rowKeep_iff _ _ _ _ _).mp hk with ⟨_, ⟨m, _, hm⟩⟩
          exact absurd hm (List.not_mem_nil m)

/-- Example generation table for the filter claims. -/
def exGenF : DFrame :=
  ⟨["Start date", "Year", "Month", "Solar [MWh] Calculated resolutions"],
   [[some 10, some 2023, some 1, some 50],
    [some 400, some 2024, some 6, some 60]]⟩

/-- Example consumption table for the filter claims. -/
def exConsF : DFrame :=
  ⟨["Start date", totalCol, "Year", "Month"],
   [[some 10, some 100, some 2023, some 1],
    [some 400, some 120, some 2024, some 6]]⟩

/-- Witness for claim C3 at a concrete input: the 2023/January generation row
is kept exactly because it lies in the selection. -/
theorem filter_membership_characterization_witness :
    [some (10:ℚ), some 2023, some 1, some 50] ∈
        (DFrame.mk ["Start date", "Year", "Month", "Solar [MWh] Calculated resolutions"]
          [[some 10, some 2023, some 1, some 50]]).rows ↔
      [some (10:ℚ), some 2023, some 1, some 50] ∈ exGenF.rows ∧
        RowInBucket 1 2 (2023, 2023) [1, 2] [some 10, some 2023, some 1, some 50] := by
  have h := (filter_membership_characterization exGenF exConsF (2023, 2023) [1, 2] []
    ⟨exGenF.cols, [[some 10, some 2023, some 1, some 50]]⟩
    ⟨exConsF.cols, [[some 10, some 100, some 2023, some 1]]⟩
    1 2 2 3
    (by with_unfolding_all rfl)
    (by with_unfolding_all rfl) (by with_unfolding_all rfl)
    (by with_unfolding_all rfl) (by with_unfolding_all rfl)).1
  exact h [some 10, some 2023, some 1, some 50]

/-- Claim C8: filtering is idempotent: if `filter_data` succeeds on a pair of
tables, applying it again with the same arguments to its own output returns
that output unchanged. -/
theorem filter_idempotent (gen cons : DFrame) (ysel : ℚ × ℚ) (months : List ℚ)
    (srcs : List String) (fg fc : DFrame)
    (h : filter_data gen cons ysel months srcs = some (fg, fc)) :
    filter_data fg fc ysel months srcs = some (fg, fc) := by
  unfold filter_data at h
  cases hfc : filterTable cons ysel months with
  | none => rw [hfc] at h; exact absurd h (by simp)
  | some fc' =>
    cases hfg : filterTable gen ysel months with
    | none => rw [hfc, hfg] at h; exact absurd h (by simp)
    | some fg' =>
      rw [hfc, hfg] at h
      simp only [Option.bind_eq_bind, Option.some_bind, Option.pure_def,
        Option.some.injEq, Prod.mk.injEq] at h
      obtain ⟨hfg', hfc'⟩ := h
      subst hfg' hfc'
      obtain ⟨gy, gm, hgy, hgm, hfgEq⟩ := filterTable_some hfg
      obtain ⟨cy, cm, hcy, hcm, hfcEq⟩ := filterTable_some hfc
      have hfilter : ∀ (df : DFrame) (yi mi : Nat),
          (df.rows.filter (rowKeep yi mi ysel months)).filter
              (rowKeep yi mi ysel months) =
            df.rows.filter (rowKeep yi mi ysel months) := by
        intro df yi mi
        exact List.filter_eq_self.mpr (fun r hr => (List.mem_filter.mp hr).2)
      unfold filter_data filterTable
      subst hfgEq hfcEq
      simp only [DFrame.colIdx?] at hgy hgm hcy hcm ⊢
      rw [hcy, hcm, hgy, hgm]
      simp only [Option.bind_eq_bind, Option.some_bind, Option.pure_def]
      rw [hfilter gen gy gm, hfilter cons cy cm]

/-- Witness for claim C8 at a concrete input: refiltering the filtered
example tables returns them unchanged. -/
theorem filter_idempotent_witness :
    filter_data ⟨exGenF.cols, [[some 10, some 2023, some 1, some 50]]⟩
        ⟨exConsF.cols, [[some 10, some 100, some 2023, some 1]]⟩
        (2023, 2023) [1, 2] [] =
      some (⟨exGenF.cols, [[some 10, some 2023, some 1, some 50]]⟩,
            ⟨exConsF.cols, [[some 10, some 100, some 2023, some 1]]⟩) :=
  filter_idempotent exGenF exConsF (2023, 2023) [1, 2] [] _ _
    (by with_unfolding_all rfl)

/-! ### Grouping helpers

pandas `groupby` over one or two key columns: rows whose key cells are
missing are dropped, group keys are sorted ascending (lexicographically for
two keys), and each group carries its rows in their original order. -/

/-- Lexicographic strict order on two-part group keys. -/
def lexLt2 (a b : ℚ × ℚ) : Bool :=
  decide (a.1 < b.1) || (decide (a.1 = b.1) && decide (a.2 < b.2))

/-- Insert a key into an ascending, duplicate-free key list. -/
def insSorted2 (k : ℚ × ℚ) : List (ℚ × ℚ) → List (ℚ × ℚ)
  | [] => [k]
  | h :: t =>
    if lexLt2 k h then k :: h :: t
    else if k = h then h :: t
    else h :: insSorted2 k t

/-- Sorted, duplicate-free list of the two-part keys occurring in a list. -/
def sortedDistinct2 (l : List (ℚ × ℚ)) : List (ℚ × ℚ) :=
  l.foldl (fun acc k => insSorted2 k acc) []

/-- A valid two-part group key: both cells present (pandas drops rows with a
missing groupby key). -/
def key2Of : Cell × Cell → Option (ℚ × ℚ)
  | (some a, some b) => some (a, b)
  | _ => none

/-- Group a payload list by two key columns: sorted distinct keys, each with
the payloads of its rows in original order. -/
def groupRows2 {α : Type} (ks1 ks2 : List Cell) (payload : List α) :
    List ((ℚ × ℚ) × List α) :=
  let tagged := (ks1.zip ks2).zip payload
  (sortedDistinct2 (tagged.filterMap (fun t => key2Of t.1))).map
    (fun k => (k, (tagged.filter (fun t => decide (key2Of t.1 = some k))).map (fun t => t.2)))

/-- `groupby([k1, k2])[v].sum()`: group sums with `NaN` values skipped. -/
def groupby2Sum (ks1 ks2 vs : List Cell) : List ((ℚ × ℚ) × ℚ) :=
  (groupRows2 ks1 ks2 vs).map (fun g => (g.1, qsum g.2))

/-- Insert a key into an ascending, duplicate-free rational list. -/
def insSorted1 (k : ℚ) : List ℚ → List ℚ
  | [] => [k]
  | h :: t =>
    if k < h then k :: h :: t
    else if k = h then h :: t
    else h :: insSorted1 k t

/-- Sorted, duplicate-free list of the keys occurring in a list. -/
def sortedDistinct1 (l : List ℚ) : List ℚ :=
  l.foldl (fun acc k => insSorted1 k acc) []

/-- Group a payload list by one key column. -/
def groupRows1 {α : Type} (ks : List Cell) (payload : List α) :
    List (ℚ × List α) :=
  let tagged := ks.zip payload
  (sortedDistinct1 (ks.filterMap id)).map
    (fun k => (k, (tagged.filter (fun t => decide (t.1 = some k))).map (fun t => t.2)))

/-- `groupby(k)[v].sum()`: group sums with `NaN` values skipped. -/
def groupby1Sum (ks vs : List Cell) : List (ℚ × ℚ) :=
  (groupRows1 ks vs).map (fun g => (g.1, qsum g.2))

/-! ### analysis.forecast_energy_trends (claims C2 and C6)

Timestamps are modelled as integer day counts with 1970-01-01 as day 0
(pandas stores int64 nanoseconds; the finite range of that representation is
abstracted away).  `pd.to_datetime(Year, Month, Day=1)` succeeds exactly on
integral year/month values with the month in 1..12 and a positive year, and
is embedded through the standard civil-calendar day count. -/

/-- Sequence a list of optional values; `none` anywhere models a raised
exception while building a column. -/
def seqOpt {α : Type} : List (Option α) → Option (List α)
  | [] => some []
  | o :: os =>
    match o, seqOpt os with
    | some a, some l => some (a :: l)
    | _, _ => none

/-- Day count of a civil date (1970-01-01 is day 0), for years at least 1:
the standard era/year-of-era computation. -/
def daysFromCivil (y m d : Int) : Int :=
  let yAdj := if m ≤ 2 then y - 1 else y
  let era := yAdj / 400
  let yoe := yAdj - era * 400
  let mp := (m + 9) % 12
  let doy := (153 * mp + 2) / 5 + d - 1
  let doe := yoe * 365 + yoe / 4 - yoe / 100 + doy
  era * 146097 + doe - 719468

/-- `pd.to_datetime` applied to assembled Year/Month columns with `Day=1`:
defined exactly for integral positive years and integral months in 1..12;
any other value raises (so the surrounding `try` yields the failure
sentinel). -/
def assembleDate (y m : ℚ) : Option Int :=
  if y.den = 1 ∧ 1 ≤ y.num ∧ m.den = 1 ∧ 1 ≤ m.num ∧ m.num ≤ 12 then
    some (daysFromCivil y.num m.num 1)
  else none

/-- The monthly consumption aggregation at the head of
`forecast_energy_trends`: `df.groupby(["Year", "Month"])[total].sum()`,
keys sorted ascending.  `none` models a `KeyError` on a missing column. -/
def monthlyConsTotals (df : DFrame) : Option (List ((ℚ × ℚ) × ℚ)) := do
  let ys ← df.getCol "Year"
  let ms ← df.getCol "Month"
  let vs ← df.getCol totalCol
  pure (groupby2Sum ys ms vs)

/-- The fixed growth factor of the forecaster (`growth_factor = 1.02`). -/
def growth_factor : ℚ := 102 / 100

/-- `monthly_data[-12:]`: the most recent 12 monthly sums (the seasonal
template). -/
def seasonalTemplate (monthly : List ((ℚ × ℚ) × ℚ)) : List ℚ :=
  (monthly.map (fun g => g.2)).drop (monthly.length - 12)

/-- `analysis.forecast_energy_trends` (analysis.py lines 83-127): aggregate
consumption to monthly sums, build the date index, and with at least 12
months of history project the last 12 monthly values forward with 2% annual
growth; forecast timestamps step by 30 days.  `none` models the `(None,
None)` result (raised-and-caught exception, or fewer than 12 months). -/
def forecast_energy_trends (df : DFrame) (periods : Nat) :
    Option (List (Int × ℚ) × List (Int × ℚ)) := do
  let monthly ← monthlyConsTotals df
  let dates ← seqOpt (monthly.map (fun g => assembleDate g.1.1 g.1.2))
  if 12 ≤ monthly.length then
    let last_12_months := seasonalTemplate monthly
    let lastDate := (dates.getLast?).getD 0
    let forecast_dates := (List.range periods).map (fun i => lastDate + 30 * (Int.ofNat i + 1))
    let forecast_values := (List.range periods).map (fun i =>
      last_12_months.getD (i % 12) 0 * growth_factor ^ (i / 12 + 1))
    pure (dates.zip (monthly.map (fun g => g.2)), forecast_dates.zip forecast_values)
  else none

/-- Claim C2: whenever the monthly aggregation succeeds with at least 12
groups (and the assembled dates are valid, as the loader guarantees), the
forecast value at 0-indexed step `i` equals
`template[i mod 12] * 1.02 ^ (i div 12 + 1)` where the template is the list
of the most recent 12 monthly sums. -/
theorem forecast_step_formula (df : DFrame) (periods : Nat)
    (monthly : List ((ℚ × ℚ) × ℚ))
    (hm : monthlyConsTotals df = some monthly)
    (hd : (seqOpt (monthly.map (fun g => assembleDate g.1.1 g.1.2))).isSome = true)
    (h12 : 12 ≤ monthly.length) (i : Nat) (hi : i < periods) :
    (forecast_energy_trends df periods).map
        (fun r => (r.2.map Prod.snd).getD i 0) =
      some ((seasonalTemplate monthly).getD (i % 12) 0 * growth_factor ^ (i / 12 + 1)) := by
  obtain ⟨dates, hds⟩ := Option.isSome_iff_exists.mp hd
  unfold forecast_energy_trends
  rw [hm]
  simp only [Option.bind_eq_bind, Option.some_bind]
  rw [hds]
  simp only [Option.some_bind, if_pos h12, Option.pure_def, Option.map_some']
  have hsnd : ∀ (l₁ : List Int) (l₂ : List ℚ), l₁.length = l₂.length →
      (l₁.zip l₂).map Prod.snd = l₂ := by
    intro l₁ l₂ h
    exact List.map_snd_zip l₁ l₂ (le_of_eq h.symm)
  rw [hsnd _ _ (by simp only [List.length_map])]
  rw [List.getD_eq_getElem?_getD, List.getElem?_map, List.getElem?_range hi]
  rfl

/-- Example consumption table with exactly 12 monthly groups. -/
def exCons2 : DFrame :=
  ⟨["Start date", totalCol, "Year", "Month"],
   [[some 1, some 101, some 2023, some 1],
    [some 2, some 102, some 2023, some 2],
    [some 3, some 103, some 2023, some 3],
    [some 4, some 104, some 2023, some 4],
    [some 5, some 105, some 2023, some 5],
    [some 6, some 106, some 2023, some 6],
    [some 7, some 107, some 2023, some 7],
    [some 8, some 108, some 2023, some 8],
    [some 9, some 109, some 2023, some 9],
    [some 10, some 110, some 2023, some 10],
    [some 11, some 111, some 2023, some 11],
    [some 12, some 112, some 2023, some 12]]⟩

/-- The monthly aggregation of `exCons2`. -/
def exMonthly2 : List ((ℚ × ℚ) × ℚ) :=
  [((2023, 1), 101), ((2023, 2), 102), ((2023, 3), 103), ((2023, 4), 104),
   ((2023, 5), 105), ((2023, 6), 106), ((2023, 7), 107), ((2023, 8), 108),
   ((2023, 9), 109), ((2023, 10), 110), ((2023, 11), 111), ((2023, 12), 112)]

/-- Witness for claim C2 at a concrete input: with exactly 12 months of
history the step-0 forecast equals the first template value times 1.02. -/
theorem forecast_step_formula_witness :
    (forecast_energy_trends exCons2 12).map
        (fun r => (r.2.map Prod.snd).getD 0 0) =
      some ((seasonalTemplate exMonthly2).getD (0 % 12) 0 * growth_factor ^ (0 / 12 + 1)) :=
  forecast_step_formula exCons2 12 exMonthly2 (by with_unfolding_all rfl)
    (by with_unfolding_all rfl) (by decide) 0 (by decide)

/-- Claim C6: when the monthly aggregation yields fewer than 12 distinct
(year, month) groups, the forecaster returns the null pair. -/
theorem forecast_insufficient_history_none (df : DFrame) (periods : Nat)
    (monthly : List ((ℚ × ℚ) × ℚ))
    (hm : monthlyConsTotals df = some monthly)
    (h12 : monthly.length < 12) :
    forecast_energy_trends df periods = none := by
  unfold forecast_energy_trends
  rw [hm]
  simp only [Option.bind_eq_bind, Option.some_bind]
  cases hds : seqOpt (monthly.map (fun g => assembleDate g.1.1 g.1.2)) with
  | none => rfl
  | some ds => simp [if_neg (Nat.not_le.mpr h12)]

/-- Example consumption table with a single monthly group. -/
def exCons6 : DFrame :=
  ⟨["Start date", totalCol, "Year", "Month"],
   [[some 0, some 100, some 2023, some 1]]⟩

/-- Witness for claim C6 at a concrete input: one month of history yields the
null pair. -/
theorem forecast_insufficient_history_none_witness :
    forecast_energy_trends exCons6 12 = none :=
  forecast_insufficient_history_none exCons6 12 [((2023, 1), 100)]
    (by with_unfolding_all rfl) (by decide)

/-! ### analysis.identify_anomalies (claims C4 and C9)

The rolling statistics follow pandas `rolling(window=window)` with its
default `min_periods = window`: a statistic is defined at position `i` only
when `window` observations, all non-missing, are available, and the sample
standard deviation (`ddof = 1`) additionally needs `window ≥ 2`.  A pandas
comparison against a `NaN` bound is false, so a row can only be flagged when
its value and both rolling statistics are defined.  The flag condition
`value > mean + std * threshold or value < mean - std * threshold` is
encoded over rationals through the rolling variance: `gtMulSqrt a t v`
decides `a > t * sqrt v`, as certified by `gtMulSqrt_correct` below. -/

/-- Decide `a > t * Real.sqrt v` (for `v ≥ 0`) in rational arithmetic. -/
def gtMulSqrt (a t v : ℚ) : Bool :=
  if 0 ≤ t then
    if 0 < a then decide (t ^ 2 * v < a ^ 2) else false
  else
    if 0 < a then true
    else if a = 0 then decide (0 < v)
    else decide (a ^ 2 < t ^ 2 * v)

/-- Correctness of the rational encoding of the flag comparison against the
real-valued `mean ± std * threshold` bounds. -/
lemma gtMulSqrt_correct (a t v : ℚ) (hv : 0 ≤ v) :
    gtMulSqrt a t v = true ↔ (t : ℝ) * Real.sqrt (v : ℝ) < (a : ℝ) := by
  have hv' : (0 : ℝ) ≤ (v : ℝ) := by exact_mod_cast hv
  have hs : 0 ≤ Real.sqrt (v : ℝ) := Real.sqrt_nonneg _
  have hs2 : Real.sqrt (v : ℝ) ^ 2 = (v : ℝ) := Real.sq_sqrt hv'
  unfold gtMulSqrt
  by_cases ht : 0 ≤ t
  · have ht' : (0 : ℝ) ≤ (t : ℝ) := by exact_mod_cast ht
    by_cases ha : 0 < a
    · have ha' : (0 : ℝ) < (a : ℝ) := by exact_mod_cast ha
      simp only [if_pos ht, if_pos ha, decide_eq_true_eq]
      constructor
      · intro h
        have h' : ((t : ℝ)) ^ 2 * (v : ℝ) < ((a : ℝ)) ^ 2 := by exact_mod_cast h
        nlinarith [mul_nonneg ht' hs, sq_nonneg ((t : ℝ) * Real.sqrt (v : ℝ) - (a : ℝ)),
          sq_nonneg ((t : ℝ) * Real.sqrt (v : ℝ) + (a : ℝ))]
      · intro h
        have h' : ((t : ℝ)) ^ 2 * (v : ℝ) < ((a : ℝ)) ^ 2 := by
          nlinarith [mul_nonneg ht' hs]
        exact_mod_cast h'
    · have ha' : (a : ℝ) ≤ 0 := by
        have : a ≤ 0 := le_of_not_lt ha
        exact_mod_cast this
      simp only [if_pos ht, if_neg ha]
      constructor
      · intro h; exact absurd h (by simp)
      · intro h
        exact absurd (lt_of_lt_of_le h ha') (not_lt.mpr (mul_nonneg ht' hs))
  · have ht' : (t : ℝ) < 0 := by
      have : t < 0 := lt_of_not_le ht
      exact_mod_cast this
    by_cases ha : 0 < a
    · have ha' : (0 : ℝ) < (a : ℝ) := by exact_mod_cast ha
      simp only [if_neg ht, if_pos ha]
      constructor
      · intro _
        exact lt_of_le_of_lt (mul_nonpos_of_nonpos_of_nonneg (le_of_lt ht') hs) ha'
      · intro _; trivial
    · by_cases ha0 : a = 0
      · subst ha0
        rw [if_neg ht, if_neg ha, if_pos rfl, decide_eq_true_eq]
        push_cast
        constructor
        · intro h
          have hvpos : (0 : ℝ) < (v : ℝ) := by exact_mod_cast h
          have : 0 < Real.sqrt (v : ℝ) := Real.sqrt_pos.mpr hvpos
          nlinarith
        · intro h
          by_contra hnv
          have hv0 : v = 0 := le_antisymm (le_of_not_lt hnv) hv
          rw [hv0] at h
          simp [Real.sqrt_zero] at h
      · have haneg : (a : ℝ) < 0 := by
          have : a < 0 := lt_of_le_of_ne (le_of_not_lt ha) ha0
          exact_mod_cast this
        simp only [if_neg ht, if_neg ha, if_neg ha0, decide_eq_true_eq]
        constructor
        · intro h
          have h' : ((a : ℝ)) ^ 2 < ((t : ℝ)) ^ 2 * (v : ℝ) := by exact_mod_cast h
          nlinarith [sq_nonneg ((t : ℝ) * Real.sqrt (v : ℝ) - (a : ℝ)),
            sq_nonneg ((t : ℝ) * Real.sqrt (v : ℝ) + (a : ℝ)),
            mul_nonpos_of_nonpos_of_nonneg (le_of_lt ht') hs]
        · intro h
          have h' : ((a : ℝ)) ^ 2 < ((t : ℝ)) ^ 2 * (v : ℝ) := by
            nlinarith [mul_nonpos_of_nonpos_of_nonneg (le_of_lt ht') hs]
          exact_mod_cast h'

/-- The trailing window of cells ending at position `i` (at most `window`
entries). -/
def rollingSlice (xs : List Cell) (window i : Nat) : List Cell :=
  (xs.take (i + 1)).drop (i + 1 - window)

/-- Rolling mean at position `i`: defined only when a full window of
non-missing observations is available (pandas `rolling(window).mean()` with
default `min_periods = window`). -/
def rollingMeanAt (xs : List Cell) (window i : Nat) : Option ℚ :=
  if 1 ≤ window ∧ window ≤ i + 1 ∧ (rollingSlice xs window i).all (fun c => c.isSome) then
    some (qsum (rollingSlice xs window i) / (window : ℚ))
  else none

/-- Rolling sample variance (`ddof = 1`) at position `i`: additionally
undefined for `window < 2` (the square root of this value is the rolling
standard deviation). -/
def rollingVarAt (xs : List Cell) (window i : Nat) : Option ℚ :=
  if 2 ≤ window ∧ window ≤ i + 1 ∧ (rollingSlice xs window i).all (fun c => c.isSome) then
    let vals := (rollingSlice xs window i).map (fun c => c.getD 0)
    let m := vals.sum / (window : ℚ)
    some ((vals.map (fun x => (x - m) ^ 2)).sum / ((window : ℚ) - 1))
  else none

/-- The anomaly flag of row `i`: `value > mean + std*threshold` or
`value < mean - std*threshold`, false whenever the value or a rolling
statistic is missing (pandas comparisons with `NaN` are false). -/
def anomalyFlag (xs : List Cell) (window : Nat) (threshold : ℚ) (i : Nat) : Bool :=
  match xs.getD i none, rollingMeanAt xs window i, rollingVarAt xs window i with
  | some v, some m, some var =>
      gtMulSqrt (v - m) threshold var || gtMulSqrt (m - v) threshold var
  | _, _, _ => false

/-- `analysis.identify_anomalies` (analysis.py lines 129-163): returns the
flagged rows, each with its 0-based position; a missing column raises a
caught exception, yielding an empty table. -/
def identify_anomalies (df : DFrame) (column : String) (window : Nat)
    (threshold : ℚ) : List (Nat × List Cell) :=
  match df.getCol column with
  | none => []
  | some xs =>
    (List.range xs.length).filterMap (fun i =>
      if anomalyFlag xs window threshold i then some (i, df.rows.getD i []) else none)

/-- Claim C4: no row with 0-based position smaller than `window - 1` ever
appears in the anomaly output, for any input series, window and threshold:
the trailing rolling statistics are undefined on the first `window - 1`
rows. -/
theorem anomalies_respect_window_floor (df : DFrame) (column : String)
    (window : Nat) (threshold : ℚ) (p : Nat × List Cell)
    (hp : p ∈ identify_anomalies df column window threshold) :
    window - 1 ≤ p.1 := by
  unfold identify_anomalies at hp
  cases hcol : df.getCol column with
  | none => rw [hcol] at hp; exact absurd hp (List.not_mem_nil p)
  | some xs =>
    rw [hcol] at hp
    obtain ⟨i, hi, hfi⟩ := List.mem_filterMap.mp hp
    by_cases hflag : anomalyFlag xs window threshold i
    · rw [if_pos hflag] at hfi
      injection hfi with hfi'
      subst hfi'
      unfold anomalyFlag at hflag
      cases hx : xs.getD i none with
      | none => rw [hx] at hflag; exact absurd hflag (by simp)
      | some v =>
        cases hmean : rollingMeanAt xs window i with
        | none => rw [hx, hmean] at hflag; exact absurd hflag (by simp)
        | some m =>
          unfold rollingMeanAt at hmean
          by_cases hcond : 1 ≤ window ∧ window ≤ i + 1 ∧
              (rollingSlice xs window i).all (fun c => c.isSome)
          · exact Nat.sub_le_of_le_add (le_trans hcond.2.1 (by omega))
          · rw [if_neg hcond] at hmean
            exact absurd hmean (by simp)
    · rw [if_neg hflag] at hfi
      exact absurd hfi (by simp)

/-- Example series with an anomaly at position 3. -/
def exAnom : DFrame := ⟨["v"], [[some 0], [some 0], [some 0], [some 100]]⟩

/-- Witness for claim C4 at a concrete input: the flagged row sits at
position 3, not below `window - 1 = 1`. -/
theorem anomalies_respect_window_floor_witness :
    2 - 1 ≤ ((3 : Nat), [some (100 : ℚ)]).1 :=
  anomalies_respect_window_floor exAnom "v" 2 (1 / 2) (3, [some 100])
    (by
      have h : identify_anomalies exAnom "v" 2 (1 / 2) = [(3, [some 100])] := by
        with_unfolding_all rfl
      rw [h]
      exact List.mem_singleton.mpr rfl)

lemma sum_of_const (l : List ℚ) (c : ℚ) (h : ∀ x ∈ l, x = c) :
    l.sum = (l.length : ℚ) * c := by
  induction l with
  | nil => simp
  | cons a t ih =>
    have ha : a = c := h a (by simp)
    have ht : ∀ x ∈ t, x = c := fun x hx => h x (by simp [hx])
    simp [ha, ih ht]
    ring

lemma rollingSlice_length (xs : List Cell) (window i : Nat)
    (hi : i < xs.length) (hw : window ≤ i + 1) :
    (rollingSlice xs window i).length = window := by
  unfold rollingSlice
  rw [List.length_drop, List.length_take]
  omega

lemma rollingSlice_mem {xs : List Cell} {window i : Nat} {c : Cell}
    (hc : c ∈ rollingSlice xs window i) : c ∈ xs := by
  unfold rollingSlice at hc
  exact List.mem_of_mem_take (List.mem_of_mem_drop hc)

/-- Claim C9: a constant input series (all values equal and present) yields
zero anomalies, for every window size and every threshold greater than 0. -/
theorem constant_series_no_anomalies (df : DFrame) (column : String)
    (xs : List Cell) (c : ℚ) (window : Nat) (threshold : ℚ)
    (hcol : df.getCol column = some xs)
    (hconst : ∀ x ∈ xs, x = some c)
    (ht : 0 < threshold) :
    identify_anomalies df column window threshold = [] := by
  unfold identify_anomalies
  rw [hcol]
  apply List.filterMap_eq_nil_iff.mpr
  intro i hi
  have hilen : i < xs.length := List.mem_range.mp hi
  suffices hfl : anomalyFlag xs window threshold i = false by
    rw [hfl]; rfl
  unfold anomalyFlag
  have hx : xs.getD i none = some c := by
    rw [List.getD_eq_getElem?_getD, List.getElem?_eq_getElem hilen]
    simp only [Option.getD_some]
    exact hconst _ (List.getElem_mem hilen)
  rw [hx]
  by_cases hcondv : 2 ≤ window ∧ window ≤ i + 1 ∧
      (rollingSlice xs window i).all (fun c => c.isSome)
  · -- both statistics defined; the variance is 0 and the mean is c
    have hslice : ∀ x ∈ rollingSlice xs window i, x = some c :=
      fun x hx' => hconst x (rollingSlice_mem hx')
    have hlen : (rollingSlice xs window i).length = window :=
      rollingSlice_length xs window i hilen hcondv.2.1
    have hwpos : (0 : ℚ) < (window : ℚ) := by
      have : 0 < window := by omega
      exact_mod_cast this
    have hqsum : qsum (rollingSlice xs window i) = (window : ℚ) * c := by
      unfold qsum
      have : ∀ x ∈ (rollingSlice xs window i).map (fun x => x.getD 0), x = c := by
        intro x hx'
        obtain ⟨y, hy, hyx⟩ := List.mem_map.mp hx'
        rw [hslice y hy] at hyx
        simpa using hyx.symm
      rw [sum_of_const _ c this, List.length_map, hlen]
    have hmean : rollingMeanAt xs window i = some c := by
      unfold rollingMeanAt
      rw [if_pos ⟨by omega, hcondv.2.1, hcondv.2.2⟩, hqsum]
      congr 1
      field_simp
    have hvar : rollingVarAt xs window i = some 0 := by
      unfold rollingVarAt
      rw [if_pos hcondv]
      have hvals : ∀ x ∈ (rollingSlice xs window i).map (fun x => x.getD 0), x = c := by
        intro x hx'
        obtain ⟨y, hy, hyx⟩ := List.mem_map.mp hx'
        rw [hslice y hy] at hyx
        simpa using hyx.symm
      have hvsum : ((rollingSlice xs window i).map (fun x => x.getD 0)).sum =
          (window : ℚ) * c := by
        rw [sum_of_const _ c hvals, List.length_map, hlen]
      have hm : ((rollingSlice xs window i).map (fun x => x.getD 0)).sum / (window : ℚ) = c := by
        rw [hvsum]; field_simp
      have hdev : ∀ x ∈ ((rollingSlice xs window i).map (fun x => x.getD 0)).map
          (fun x => (x - ((rollingSlice xs window i).map (fun y => y.getD 0)).sum / (window : ℚ)) ^ 2),
          x = 0 := by
        intro x hx'
        obtain ⟨y, hy, hyx⟩ := List.mem_map.mp hx'
        rw [hvals y hy, hm] at hyx
        simpa using hyx.symm
      simp only [Option.some.injEq]
      rw [sum_of_const _ 0 hdev]
      simp
    rw [hmean, hvar]
    have hg : gtMulSqrt 0 threshold 0 = false := by
      unfold gtMulSqrt
      rw [if_pos (le_of_lt ht), if_neg (lt_irrefl (0 : ℚ))]
    simp [sub_self, hg]
  · -- at least one rolling statistic is undefined
    cases hmean : rollingMeanAt xs window i with
    | none => rfl
    | some m =>
      have hvarnone : rollingVarAt xs window i = none := by
        unfold rollingVarAt
        exact if_neg hcondv
      rw [hvarnone]

/-- Example constant series. -/
def exConst : DFrame := ⟨["v"], [[some 7], [some 7], [some 7], [some 7], [some 7]]⟩

/-- Witness for claim C9 at a concrete input: a constant series of five
sevens yields no anomalies. -/
theorem constant_series_no_anomalies_witness :
    identify_anomalies exConst "v" 3 1 = [] :=
  constant_series_no_anomalies exConst "v"
    [some 7, some 7, some 7, some 7, some 7] 7 3 1
    (by with_unfolding_all rfl) (by decide) (by decide)

/-! ### analysis.analyze_energy_trends (claims C5 and C7)

The whole body runs inside one `try`, and the `except` arm returns `{}`;
the body is embedded as `computeMetrics` (an `Option`-valued computation
whose `none` models any raised exception at any step), and the returned
dict literal as `metricsEntries`.  `select_dtypes` / `to_numeric` coercion
steps are identity here because cells are already numeric-or-missing, and
the unused local `energy_gen_numeric` (line 25, a total slicing/coercion
that cannot raise) is omitted.  The year-over-year division is over ℚ; its
float counterpart yields `inf` rather than raising when the previous year
sums to zero, so no failure path is introduced there either way. -/

/-- Whether the first character list begins with the second. -/
def charsBeginWith : List Char → List Char → Bool
  | [], _ => true
  | _ :: _, [] => false
  | a :: as, b :: bs => a = b && charsBeginWith as bs

/-- Whether the pattern occurs as a contiguous run of the character list. -/
def charsContain (pat : List Char) : List Char → Bool
  | [] => pat.isEmpty
  | c :: cs => charsBeginWith pat (c :: cs) || charsContain pat cs

/-- Python `pat in s` substring membership. -/
def strContains (s pat : String) : Bool := charsContain pat.data s.data

/-- Python `s.lower()`. -/
def strLower (s : String) : String := ⟨s.data.map Char.toLower⟩

/-- Maximum of a rational list, `none` when empty. -/
def listMax? : List ℚ → Option ℚ
  | [] => none
  | x :: xs =>
    match listMax? xs with
    | none => some x
    | some m => some (max x m)

/-- `Series.idxmax()` positionally: the first position carrying the maximum
of the non-missing values; `none` (a raised `ValueError`) when no
non-missing value exists. -/
def idxmax? (l : List Cell) : Option Nat :=
  match listMax? (l.filterMap id) with
  | none => none
  | some m => l.findIdx? (fun c => c = some m)

/-- Mean of the non-missing cells (`NaN` when there are none), as pandas
group means behave. -/
def qmean? (l : List Cell) : Cell :=
  if (l.filterMap id).length = 0 then none
  else some (qsum l / ((l.filterMap id).length : ℚ))

/-- `groupby(k)[v].mean()`: group means, `NaN` for an all-missing group. -/
def groupby1Mean (ks vs : List Cell) : List (ℚ × Cell) :=
  (groupRows1 ks vs).map (fun g => (g.1, qmean? g.2))

/-- `Series.idxmax()` on a keyed series: first key carrying the maximal
non-missing value; `none` (a raised `ValueError`) when all values are
missing. -/
def idxmaxKeyed (l : List (ℚ × Cell)) : Option ℚ :=
  match listMax? (l.filterMap (fun p => p.2)) with
  | none => none
  | some m => (l.find? (fun p => decide (p.2 = some m))).map (fun p => p.1)

/-- The renewable source markers matched case-insensitively as substrings. -/
def renewableNames : List String := ["solar", "wind", "hydro", "biomass", "geothermal"]

/-- The metrics computed by a successful run of `analyze_energy_trends`. -/
structure Metrics where
  total_consumption : ℚ
  total_generation : ℚ
  efficiency_ratio : ℚ
  yoy_growth : ℚ
  peak_consumption : ℚ
  peak_date : Cell
  renewable_percentage : ℚ
  highest_quarter : Option ℚ
  consumption_by_year : List (ℚ × ℚ)

/-- The body of `analyze_energy_trends` (analysis.py lines 22-78): `none`
models an exception raised at any step (missing column, `idxmax` over no
observations). -/
def computeMetrics (energy_gen energy_cons : DFrame) : Option Metrics := do
  let totalCells ← energy_cons.getCol totalCol
  let total_consumption := qsum totalCells
  let gen_columns := energy_gen.cols.filter (fun c => strContains c "[MWh]")
  let total_generation :=
    (gen_columns.map (fun c => qsum ((energy_gen.getCol c).getD []))).sum
  let efficiency_ratio :=
    if 0 < total_consumption then total_generation / total_consumption * 100 else 0
  let yearCells ← energy_cons.getCol "Year"
  let consumption_by_year := groupby1Sum yearCells totalCells
  let yoy_growth :=
    if 1 < consumption_by_year.length then
      (((consumption_by_year.getLast?).getD (0, 0)).2 /
          (consumption_by_year.getD (consumption_by_year.length - 2) (0, 0)).2 - 1) * 100
    else 0
  let pidx ← idxmax? totalCells
  let peak_consumption := (listMax? (totalCells.filterMap id)).getD 0
  let startCells ← energy_cons.getCol "Start date"
  let peak_date := startCells.getD pidx none
  let renewable_columns := gen_columns.filter (fun c =>
    renewableNames.any (fun s => strContains (strLower c) s))
  let renewable_percentage :=
    if renewable_columns.isEmpty then 0
    else
      let renewable_generation :=
        (renewable_columns.map (fun c => qsum ((energy_gen.getCol c).getD []))).sum
      if 0 < total_generation then renewable_generation / total_generation * 100 else 0
  let quarterCells ← energy_cons.getCol "Quarter"
  let seasonal_consumption := groupby1Mean quarterCells totalCells
  let highest_quarter ←
    if seasonal_consumption.isEmpty then some none
    else
      match idxmaxKeyed seasonal_consumption with
      | some k => some (some k)
      | none => none
  pure ⟨total_consumption, total_generation, efficiency_ratio, yoy_growth,
        peak_consumption, peak_date, renewable_percentage, highest_quarter,
        consumption_by_year⟩

/-- The heterogeneous values stored in the returned metrics mapping. -/
inductive MValue where
  | num : ℚ → MValue
  | dateVal : Cell → MValue
  | opt : Option ℚ → MValue
  | series : List (ℚ × ℚ) → MValue

/-- The dict literal returned on success (analysis.py lines 68-78). -/
def metricsEntries (m : Metrics) : List (String × MValue) :=
  [("total_consumption", MValue.num m.total_consumption),
   ("total_generation", MValue.num m.total_generation),
   ("efficiency_ratio", MValue.num m.efficiency_ratio),
   ("yoy_growth", MValue.num m.yoy_growth),
   ("peak_consumption", MValue.num m.peak_consumption),
   ("peak_date", MValue.dateVal m.peak_date),
   ("renewable_percentage", MValue.num m.renewable_percentage),
   ("highest_quarter", MValue.opt m.highest_quarter),
   ("consumption_by_year", MValue.series m.consumption_by_year)]

/-- `analysis.analyze_energy_trends`: the caught-exception arm returns the
empty mapping. -/
def analyze_energy_trends (energy_gen energy_cons : DFrame) : List (String × MValue) :=
  match computeMetrics energy_gen energy_cons with
  | some m => metricsEntries m
  | none => []

/-- Claim C7: the metrics mapping is all-or-nothing: on every input the
result is either completely empty (some step raised) or carries exactly the
nine metric keys; no partially-populated mapping and no propagated
exception. -/
theorem metrics_all_or_nothing (energy_gen energy_cons : DFrame) :
    analyze_energy_trends energy_gen energy_cons = [] ∨
    (analyze_energy_trends energy_gen energy_cons).map Prod.fst =
      ["total_consumption", "total_generation", "efficiency_ratio", "yoy_growth",
       "peak_consumption", "peak_date", "renewable_percentage", "highest_quarter",
       "consumption_by_year"] := by
  unfold analyze_energy_trends
  cases computeMetrics energy_gen energy_cons with
  | none => left; rfl
  | some m => right; rfl

/-- Total of the consumption load column, as summed by the code. -/
def totalConsumptionOf (energy_cons : DFrame) : ℚ :=
  qsum ((energy_cons.getCol totalCol).getD [])

/-- Total over all generation columns carrying the MWh marker, as summed by
the code. -/
def totalGenerationOf (energy_gen : DFrame) : ℚ :=
  ((energy_gen.cols.filter (fun c => strContains c "[MWh]")).map
    (fun c => qsum ((energy_gen.getCol c).getD []))).sum

/-- Claim C5 (amended): whenever the summarizer succeeds, the efficiency
ratio equals `total_generation / total_consumption * 100` when the total
consumption is positive, and `0` otherwise — in particular `0`, not an
error, when the total consumption is `0`.  (The claim as frozen asserts the
quotient formula unconditionally apart from the zero case; the code also
returns `0` for negative totals, see the counterexample.) -/
theorem efficiency_ratio_amended (energy_gen energy_cons : DFrame)
    (h : (computeMetrics energy_gen energy_cons).isSome = true) :
    (computeMetrics energy_gen energy_cons).map Metrics.efficiency_ratio =
      some (if 0 < totalConsumptionOf energy_cons then
              totalGenerationOf energy_gen / totalConsumptionOf energy_cons * 100
            else 0) := by
  obtain ⟨m, hm⟩ := Option.isSome_iff_exists.mp h
  rw [hm, Option.map_some']
  unfold computeMetrics at hm
  cases htc : energy_cons.getCol totalCol with
  | none => rw [htc] at hm; exact absurd hm (by simp)
  | some totalCells =>
    rw [htc] at hm
    simp only [Option.bind_eq_bind, Option.some_bind] at hm
    cases hy : energy_cons.getCol "Year" with
    | none => rw [hy] at hm; exact absurd hm (by simp)
    | some yearCells =>
      rw [hy] at hm
      simp only [Option.some_bind] at hm
      cases hpi : idxmax? totalCells with
      | none => rw [hpi] at hm; exact absurd hm (by simp)
      | some pidx =>
        rw [hpi] at hm
        simp only [Option.some_bind] at hm
        cases hsd : energy_cons.getCol "Start date" with
        | none => rw [hsd] at hm; exact absurd hm (by simp)
        | some startCells =>
          rw [hsd] at hm
          simp only [Option.some_bind] at hm
          cases hqc : energy_cons.getCol "Quarter" with
          | none => rw [hqc] at hm; exact absurd hm (by simp)
          | some quarterCells =>
            rw [hqc] at hm
            simp only [Option.some_bind] at hm
            split at hm
            · simp only [Option.pure_def, Option.some.injEq] at hm
              subst hm
              unfold totalConsumptionOf totalGenerationOf
              rw [htc]
              rfl
            · split at hm
              · simp only [Option.pure_def, Option.some.injEq] at hm
                subst hm
                unfold totalConsumptionOf totalGenerationOf
                rw [htc]
                rfl
              · simp only [Option.none_bind] at hm
                exact absurd hm (by simp)

/-- Example tables exercising the negative-total branch of the efficiency
ratio. -/
def exCons5 : DFrame :=
  ⟨["Start date", totalCol, "Year", "Quarter"],
   [[some 1, some (-100), some 2023, some 1]]⟩

/-- Example generation table with a single solar column summing to 50. -/
def exGen5 : DFrame :=
  ⟨["Start date", "Solar [MWh] Calculated resolutions"],
   [[some 1, some 50]]⟩

/-- Counterexample to claim C5 as frozen: at these tables the total
consumption is -100 (nonzero), the code returns an efficiency ratio of 0,
yet the claimed formula value `total_generation / total_consumption * 100`
is -50. -/
theorem efficiency_ratio_claim_counterexample :
    (computeMetrics exGen5 exCons5).map Metrics.efficiency_ratio = some 0 ∧
    totalConsumptionOf exCons5 = -100 ∧
    totalGenerationOf exGen5 = 50 ∧
    ((50 : ℚ) / (-100) * 100 = -50) ∧ ((-50 : ℚ) ≠ 0) ∧ ((-100 : ℚ) ≠ 0) := by
  refine ⟨?_, ?_, ?_, ?_, ?_, ?_⟩
  · with_unfolding_all rfl
  · with_unfolding_all rfl
  · with_unfolding_all rfl
  · norm_num
  · norm_num
  · norm_num

/-- Example tables with a positive consumption total. -/
def exCons5w : DFrame :=
  ⟨["Start date", totalCol, "Year", "Quarter"],
   [[some 1, some 200, some 2023, some 1]]⟩

/-- Witness for claim C5 (amended) at a concrete input with positive total
consumption. -/
theorem efficiency_ratio_amended_witness :
    (computeMetrics exGen5 exCons5w).map Metrics.efficiency_ratio =
      some (if 0 < totalConsumptionOf exCons5w then
              totalGenerationOf exGen5 / totalConsumptionOf exCons5w * 100
            else 0) :=
  efficiency_ratio_amended exGen5 exCons5w (by with_unfolding_all rfl)

/-! ### analysis.prepare_trends_data (claim C1)

The trend table built for the chart: for the monthly, quarterly and yearly
views both tables are grouped and summed, and the resulting bucket lists are
combined positionally (`pd.DataFrame` of two reset-index series aligns on
the shared `RangeIndex`, i.e. by row order, padding the shorter side with
`NaN`).  There is no `try` here, so a missing column raises; the `Option`
result models that.  The quarterly/yearly `"YYYY Q#"` / `str(year)` labels
are built with `int()` truncation, exact on the integral keys produced by
grouping; the quarterly label also computed on the generation side
(analysis.py line 219) is unused in the output and cannot raise on non-`NaN`
group keys, so it is omitted. -/

/-- A bucket label of the trend table: a timestamp-valued label or a string
label. -/
inductive LabelVal where
  | ts : ℚ → LabelVal
  | str : String → LabelVal

/-- One row of the trend table: bucket label, consumption, generation
(`none` is `NaN`). -/
structure TrendRow where
  date : Option LabelVal
  consumption : Cell
  generation : Cell

/-- pandas groupby `"first"` aggregation: the first non-missing value of the
group, `NaN` when there is none. -/
def firstCell (l : List Cell) : Cell := (l.filterMap id).head?

/-- Python `int()` truncation of a rational (exact on integral values). -/
def ratTrunc (q : ℚ) : Int := q.num / (q.den : Int)

/-- Python `str(int(q))`. -/
def intLabel (q : ℚ) : String := toString (ratTrunc q)

/-- The `f"{int(Year)} Q{int(Quarter)}"` label. -/
def quarterLabel (y qtr : ℚ) : String := intLabel y ++ " Q" ++ intLabel qtr

/-- Select the given generation columns and return them row-major; `none`
models the `KeyError` on a missing source column. -/
def genSourceRows (gen : DFrame) (genCols : List String) : Option (List (List Cell)) := do
  let colsData ← seqOpt (genCols.map (fun c => gen.getCol c))
  pure ((List.range gen.rows.length).map (fun i => colsData.map (fun col => col.getD i none)))

/-- `analysis.prepare_trends_data` (analysis.py lines 165-244). -/
def prepare_trends_data (filtered_energy_cons filtered_energy_gen : DFrame)
    (selected_sources : List String) (view_type : String) : Option (List TrendRow) :=
  let gen_columns := selected_sources.map (fun s => s ++ " [MWh] Calculated resolutions")
  if view_type = "Daily" then do
    let sd ← filtered_energy_cons.getCol "Start date"
    let tc ← filtered_energy_cons.getCol totalCol
    let genRows ← genSourceRows filtered_energy_gen gen_columns
    let gen_data := genRows.map qsum
    pure ((List.range filtered_energy_cons.rows.length).map (fun i =>
      ⟨(sd.getD i none).map LabelVal.ts, tc.getD i none,
       if filtered_energy_gen.rows.length = filtered_energy_cons.rows.length then
         some (gen_data.getD i 0)
       else none⟩))
  else if view_type = "Monthly" then do
    let cys ← filtered_energy_cons.getCol "Year"
    let cms ← filtered_energy_cons.getCol "Month"
    let csd ← filtered_energy_cons.getCol "Start date"
    let ctc ← filtered_energy_cons.getCol totalCol
    let cons_monthly := (groupRows2 cys cms (csd.zip ctc)).map
      (fun g => (firstCell (g.2.map (fun p => p.1)), qsum (g.2.map (fun p => p.2))))
    let gys ← filtered_energy_gen.getCol "Year"
    let gms ← filtered_energy_gen.getCol "Month"
    let _gsd ← filtered_energy_gen.getCol "Start date"
    let genRows ← genSourceRows filtered_energy_gen gen_columns
    let gen_monthly := (groupRows2 gys gms genRows).map (fun g => (g.2.map qsum).sum)
    pure ((List.range (max cons_monthly.length gen_monthly.length)).map (fun i =>
      match cons_monthly[i]? with
      | some p => ⟨p.1.map LabelVal.ts, some p.2, gen_monthly[i]?⟩
      | none => ⟨none, none, gen_monthly[i]?⟩))
  else if view_type = "Quarterly" then do
    let cys ← filtered_energy_cons.getCol "Year"
    let cqs ← filtered_energy_cons.getCol "Quarter"
    let ctc ← filtered_energy_cons.getCol totalCol
    let cons_quarterly := groupby2Sum cys cqs ctc
    let gys ← filtered_energy_gen.getCol "Year"
    let gqs ← filtered_energy_gen.getCol "Quarter"
    let genRows ← genSourceRows filtered_energy_gen gen_columns
    let gen_quarterly := (groupRows2 gys gqs genRows).map
      (fun g => (g.1, (g.2.map qsum).sum))
    pure ((List.range (max cons_quarterly.length gen_quarterly.length)).map (fun i =>
      match cons_quarterly[i]? with
      | some p => ⟨some (LabelVal.str (quarterLabel p.1.1 p.1.2)), some p.2,
                   (gen_quarterly[i]?).map (fun g => g.2)⟩
      | none => ⟨none, none, (gen_quarterly[i]?).map (fun g => g.2)⟩))
  else do
    let cys ← filtered_energy_cons.getCol "Year"
    let ctc ← filtered_energy_cons.getCol totalCol
    let cons_yearly := groupby1Sum cys ctc
    let gys ← filtered_energy_gen.getCol "Year"
    let genRows ← genSourceRows filtered_energy_gen gen_columns
    let gen_yearly := (groupRows1 gys genRows).map
      (fun g => (g.1, (g.2.map qsum).sum))
    pure ((List.range (max cons_yearly.length gen_yearly.length)).map (fun i =>
      match cons_yearly[i]? with
      | some p => ⟨some (LabelVal.str (intLabel p.1)), some p.2,
                   (gen_yearly[i]?).map (fun g => g.2)⟩
      | none => ⟨none, none, (gen_yearly[i]?).map (fun g => g.2)⟩))

/-- Consumption table with the three monthly buckets (2023, 1..3). -/
def exCons1 : DFrame :=
  ⟨["Start date", totalCol, "Year", "Month"],
   [[some 10, some 100, some 2023, some 1],
    [some 40, some 120, some 2023, some 2],
    [some 70, some 130, some 2023, some 3]]⟩

/-- Generation table lacking the (2023, 2) bucket. -/
def exGen1 : DFrame :=
  ⟨["Start date", "Year", "Month", "Solar [MWh] Calculated resolutions"],
   [[some 10, some 2023, some 1, some 50],
    [some 70, some 2023, some 3, some 70]]⟩

/-- Claim C1 (code bug): at tables whose generation side lacks the
(2023, 2) bucket, the monthly trend table aligns the grouped tables by row
position: the row of the (2023, 2) consumption bucket carries the (2023, 3)
generation sum 70 — a value taken from a different period — and the
(2023, 3) row carries NaN, instead of NaN in the (2023, 2) row as the claim
requires.  The second conjunct records that the generation table indeed has
no month-2 row. -/
theorem trend_alignment_is_by_row_order :
    prepare_trends_data exCons1 exGen1 ["Solar"] "Monthly" =
      some [⟨some (LabelVal.ts 10), some 100, some 50⟩,
            ⟨some (LabelVal.ts 40), some 120, some 70⟩,
            ⟨some (LabelVal.ts 70), some 130, none⟩] ∧
    ((exGen1.getCol "Month").getD []).all (fun m => decide (m ≠ some 2)) = true := by
  constructor
  · with_unfolding_all rfl
  · with_unfolding_all rfl

end BetterSave
